import Mathlib

/-!
Shallow embedding of the eremius assembler/emulator core (Rust) in Lean 4,
together with theorems checking the natural-language specification against
the code.  Every definition is translated from the repository source
(`src/ir/mod.rs`, `src/encoder/mod.rs`, `src/decoder/mod.rs`,
`src/resolver/mod.rs`, `src/preprocessor/mod.rs`, `src/emulator/mod.rs`);
machine integers (u8/u32/i32/usize) are modelled as `Nat`/`Int` with
explicit wrap-around where the Rust semantics wraps.
-/

namespace Eremius

/-! ## 32-bit machine-integer helpers -/

/-- The modulus of a `u32`. -/
def u32Mod : Nat := 4294967296

/-- Rust `u32::leading_zeros` (for inputs `< 2^32`): the number of zero
bits above the highest set bit, 32 for 0. -/
def leadingZeros32 (n : Nat) : Nat :=
  ((List.range 32).find? (fun i => n.testBit (31 - i))).getD 32

/-- Rust `u32::trailing_zeros`: index of the lowest set bit, 32 for 0. -/
def trailingZeros32 (n : Nat) : Nat :=
  ((List.range 32).find? (fun i => n.testBit i)).getD 32

/-- Rust `u32::rotate_left` (the rotation amount is taken mod 32). -/
def rotateLeft32 (n k : Nat) : Nat :=
  let m := n % u32Mod
  let k := k % 32
  ((m <<< k) % u32Mod) ||| (m >>> (32 - k))

/-- Rust `u32::rotate_right` (the rotation amount is taken mod 32). -/
def rotateRight32 (n k : Nat) : Nat :=
  let m := n % u32Mod
  let k := k % 32
  (m >>> k) ||| ((m <<< (32 - k)) % u32Mod)

/-- Reinterpret a `u32`/`usize` bit pattern as an `i32` (Rust `as i32`). -/
def toI32 (n : Nat) : Int :=
  let m := n % u32Mod
  if m < 2 ^ 31 then (m : Int) else (m : Int) - (u32Mod : Int)

/-! ## Numeric IR types (`src/ir/mod.rs`) -/

/-- `UnencodableValueError<N>` from `src/ir/mod.rs`. -/
structure UnencodableValueError (α : Type) where
  value : α
deriving DecidableEq, Repr

/-- `Imm<const N: u32>` from `src/ir/mod.rs`: a plain field, the bound is
only checked by `try_from`. -/
structure Imm (N : Nat) where
  val : Nat
deriving DecidableEq, Repr

/-- `Imm::new` (no bounds check in the source). -/
def Imm.new (N : Nat) (value : Nat) : Imm N := ⟨value⟩

/-- `Imm::get`. -/
def Imm.get {N : Nat} (i : Imm N) : Nat := i.val

/-- `impl TryFrom<u32> for Imm<N>`: the source tests `value < (2 ^ N)`,
and in Rust `^` is bitwise xor, so the bound is `2 XOR N`. -/
def Imm.tryFrom (N : Nat) (value : Nat) : Except (UnencodableValueError Nat) (Imm N) :=
  if value < (2 ^^^ N) then .ok ⟨value⟩ else .error ⟨value⟩

/-- `SignedImm<const N: u32>` from `src/ir/mod.rs`. -/
structure SignedImm (N : Nat) where
  val : Int
deriving DecidableEq, Repr

/-- `SignedImm::new`. -/
def SignedImm.new (N : Nat) (value : Int) : SignedImm N := ⟨value⟩

/-- `SignedImm::get`. -/
def SignedImm.get {N : Nat} (i : SignedImm N) : Int := i.val

/-- `impl TryFrom<i32> for SignedImm<N>`: the source tests membership in
`-(2 ^ (N-1))..(2 ^ (N-1))` where Rust `^` is bitwise xor, so the bound
is `2 XOR (N-1)` (21 for N = 24). -/
def SignedImm.tryFrom (N : Nat) (value : Int) :
    Except (UnencodableValueError Int) (SignedImm N) :=
  let bound : Int := ((2 ^^^ (N - 1) : Nat) : Int)
  if -bound ≤ value ∧ value < bound then .ok ⟨value⟩ else .error ⟨value⟩

/-- `RotatedImm8` from `src/ir/mod.rs`: `rotate` and `value` are `u8`s. -/
structure RotatedImm8 where
  rotate : Nat
  value : Nat
deriving DecidableEq, Repr

/-- `RotatedImm8::new(value, rotate)`. -/
def RotatedImm8.new (value rotate : Nat) : RotatedImm8 := ⟨rotate, value⟩

/-- `RotatedImm8::get`: `(value as u32).rotate_right(rotate * 2)`. -/
def RotatedImm8.get (r : RotatedImm8) : Nat :=
  rotateRight32 r.value (r.rotate * 2)

/-- `RotatedImm8::nearest_below` from `src/ir/mod.rs`. -/
def RotatedImm8.nearestBelow (n : Nat) : RotatedImm8 :=
  let leading := Nat.min (leadingZeros32 n) 24
  let trailing := trailingZeros32 n
  let rotateAmount := Nat.min ((8 + leading) % 32) (32 - trailing)
  let rotate := rotateAmount / 2
  let value := (rotateLeft32 n (rotate * 2)) &&& 0xFF
  { rotate := rotate, value := value }

/-- `RotatedImm8::next` from `src/ir/mod.rs`: increments the 8-bit value
(`u8::wrapping_add`); on wrap it increments `rotate` and sets the value
to `0b01000000`. -/
def RotatedImm8.next (r : RotatedImm8) : RotatedImm8 :=
  let value := (r.value + 1) % 256
  if value = 0 then
    { rotate := r.rotate + 1, value := 0b01000000 }
  else
    { rotate := r.rotate, value := value }

/-- `impl TryFrom<u32> for RotatedImm8`: builds `nearest_below` and
succeeds only when it hits the value exactly. -/
def RotatedImm8.tryFrom (value : Nat) : Except (UnencodableValueError Nat) RotatedImm8 :=
  let nearestBelow := RotatedImm8.nearestBelow value
  if nearestBelow.get = value then .ok nearestBelow else .error ⟨value⟩

/-- `RotatedImm8::nearest_with_remainder` from `src/ir/mod.rs`.  The two
`u32` subtractions wrap in release mode; modelled with explicit wrap. -/
def RotatedImm8.nearestWithRemainder (n : Nat) : RotatedImm8 × Int :=
  let nearestBelow := RotatedImm8.nearestBelow n
  let nearestAbove := nearestBelow.next
  let nearestBelowDiff := (n + u32Mod - nearestBelow.get) % u32Mod
  let nearestAboveDiff := (nearestAbove.get + u32Mod - n) % u32Mod
  if nearestBelowDiff < nearestAboveDiff then
    (nearestBelow, toI32 nearestBelowDiff)
  else
    (nearestAbove, -(toI32 nearestAboveDiff))

/-! ## Instruction IR (`src/ir/mod.rs`), resolved form
(the default type parameters of the Rust `InstructionKind`). -/

/-- `Condition` (15-way, discriminants are the 4-bit ARM condition field). -/
inductive Condition where
  | EQ | NE | CS | CC | MI | PL | VS | VC
  | HI | LS | GE | LT | GT | LE | AL
deriving DecidableEq, Repr

/-- The `#[repr(u8)]` discriminant of `Condition`. -/
def Condition.toBits : Condition → Nat
  | .EQ => 0b0000
  | .NE => 0b0001
  | .CS => 0b0010
  | .CC => 0b0011
  | .MI => 0b0100
  | .PL => 0b0101
  | .VS => 0b0110
  | .VC => 0b0111
  | .HI => 0b1000
  | .LS => 0b1001
  | .GE => 0b1010
  | .LT => 0b1011
  | .GT => 0b1100
  | .LE => 0b1101
  | .AL => 0b1110

/-- `Shift` (barrel-shifter kind, discriminants 0b00..0b11). -/
inductive Shift where
  | LogicalShiftLeft
  | LogicalShiftRight
  | ArithmeticShiftRight
  | RotateRight
deriving DecidableEq, Repr

/-- The `#[repr(u8)]` discriminant of `Shift`. -/
def Shift.toBits : Shift → Nat
  | .LogicalShiftLeft => 0b00
  | .LogicalShiftRight => 0b01
  | .ArithmeticShiftRight => 0b10
  | .RotateRight => 0b11

/-- `Rn` (base register number, a `u8`). -/
structure Rn where
  val : Nat
deriving DecidableEq, Repr

/-- `Rd` (destination register number, a `u8`). -/
structure Rd where
  val : Nat
deriving DecidableEq, Repr

/-- `Rm` (operand register number, a `u8`). -/
structure Rm where
  val : Nat
deriving DecidableEq, Repr

/-- `Rs` (shift-amount register number, a `u8`). -/
structure Rs where
  val : Nat
deriving DecidableEq, Repr

/-- `ShiftedRegister<Amount, Base = Rm>`. -/
structure ShiftedRegister (Amount : Type) (Base : Type := Rm) where
  kind : Shift
  amount : Amount
  base : Base
deriving DecidableEq, Repr

/-- `ShifterOperandCode` with its default parameters
(`Immediate = RotatedImm8`, `ShiftImm = Imm<5>`). -/
inductive ShifterOperandCode where
  | Immediate (imm : RotatedImm8)
  | ImmediateShift (shift : ShiftedRegister (Imm 5) Rm)
  | RegisterShift (shift : ShiftedRegister Rs Rm)
deriving DecidableEq, Repr

/-- `BranchKind`. -/
inductive BranchKind where
  | Branch
  | BranchWithLink
deriving DecidableEq, Repr

/-- `MoveKind`. -/
inductive MoveKind where
  | Move
  | MoveNot
deriving DecidableEq, Repr

/-- `SetFlags`. -/
inductive SetFlags where
  | Set
  | DontSet
deriving DecidableEq, Repr

/-- `WriteBack`. -/
inductive WriteBack where
  | WriteBack
  | NoWriteBack
deriving DecidableEq, Repr

/-- `ComparisonKind` (only `CMP` is implemented). -/
inductive ComparisonKind where
  | CMP
deriving DecidableEq, Repr

/-- `CalculationKind` (only `ADD`/`SUB` are implemented). -/
inductive CalculationKind where
  | ADD
  | SUB
deriving DecidableEq, Repr

/-- `LoadStoreKind`. -/
inductive LoadStoreKind where
  | Load
  | Store
deriving DecidableEq, Repr

/-- `LoadStoreQuantity`. -/
inductive LoadStoreQuantity where
  | Byte
  | Word
deriving DecidableEq, Repr

/-- `Sign` of an addressing offset. -/
inductive Sign where
  | Positive
  | Negative
deriving DecidableEq, Repr

/-- `OffsetMode`. -/
inductive OffsetMode where
  | Offset
  | PreIndexed
  | PostIndexed
deriving DecidableEq, Repr

/-- `MultipleAddressingMode`. -/
inductive MultipleAddressingMode where
  | DecrementAfter
  | IncrementAfter
  | DecrementBefore
  | IncrementBefore
deriving DecidableEq, Repr

/-- `AddressingOffsetValue<Immediate, ShiftImmediate>` (resolved form:
`Immediate = Imm<12>`, `ShiftImmediate = Imm<5>`). -/
inductive AddressingOffsetValue where
  | Immediate (imm : Imm 12)
  | Register (register : Rm)
  | ScaledRegister (shift : ShiftedRegister (Imm 5) Rm)
deriving DecidableEq, Repr

/-- `AddressingOffset` (resolved form). -/
structure AddressingOffset where
  sign : Sign
  value : AddressingOffsetValue
  mode : OffsetMode
deriving DecidableEq, Repr

/-- `LoadStoreAddressCode` (resolved form). -/
structure LoadStoreAddressCode where
  base : Rn
  offset : AddressingOffset
deriving DecidableEq, Repr

/-- `RegisterList`: 16 membership booleans. -/
structure RegisterList where
  registers : List Bool
deriving DecidableEq, Repr

/-- `DataProcessingKind` (resolved form). -/
inductive DataProcessingKind where
  | Move (kind : MoveKind) (setFlags : SetFlags) (destination : Rd)
      (shifter : ShifterOperandCode)
  | Comparison (kind : ComparisonKind) (source : Rn) (shifter : ShifterOperandCode)
  | Calculation (kind : CalculationKind) (setFlags : SetFlags) (destination : Rd)
      (source : Rn) (shifter : ShifterOperandCode)
deriving DecidableEq, Repr

/-- `InstructionKind` with its default (resolved) type parameters. -/
inductive InstructionKind where
  | Branch (condition : Condition) (kind : BranchKind) (target : SignedImm 24)
  | DataProcessing (condition : Condition) (kind : DataProcessingKind)
  | LoadStore (condition : Condition) (kind : LoadStoreKind)
      (quantity : LoadStoreQuantity) (destination : Rd)
      (address : LoadStoreAddressCode)
  | LoadStoreMultiple (condition : Condition) (kind : LoadStoreKind)
      (mode : MultipleAddressingMode) (base : Rn) (writeBack : WriteBack)
      (registerList : RegisterList)
  | SuperVisorCall (condition : Condition) (immediate : Imm 24)
deriving DecidableEq, Repr

/-! ## Encoder (`src/encoder/mod.rs`) -/

/-- `bits::bottom_n`: a mask of the bottom n bits. -/
def bottomN (n : Nat) : Nat := (1 <<< n) - 1

/-- `Encode for Condition`: sets bits 28 to 31. -/
def Condition.encode (c : Condition) : Nat := c.toBits <<< 28

/-- `Encode for Imm<N>`: sets bits 0 to N. -/
def Imm.encode {N : Nat} (i : Imm N) : Nat := i.get

/-- `Encode for SignedImm<N>`: `(self.get() as u32) & bits::bottom_n(N)`. -/
def SignedImm.encode {N : Nat} (i : SignedImm N) : Nat :=
  ((i.get % (u32Mod : Int)).toNat) &&& bottomN N

/-- `Encode for BranchKind`: sets bit 24. -/
def BranchKind.encode : BranchKind → Nat
  | .BranchWithLink => 1 <<< 24
  | .Branch => 0

/-- `Encode for MoveKind`: sets bit 22. -/
def MoveKind.encode : MoveKind → Nat
  | .Move => 0
  | .MoveNot => 1 <<< 22

/-- `Encode for SetFlags`: sets bit 20. -/
def SetFlags.encode : SetFlags → Nat
  | .Set => 1 <<< 20
  | .DontSet => 0

/-- `Encode for LoadStoreKind`: sets bit 20. -/
def LoadStoreKind.encode : LoadStoreKind → Nat
  | .Load => 1 <<< 20
  | .Store => 0

/-- `Encode for LoadStoreQuantity`: sets bit 22. -/
def LoadStoreQuantity.encode : LoadStoreQuantity → Nat
  | .Byte => 1 <<< 22
  | .Word => 0

/-- `Encode for Rn`: sets bits 16 to 19. -/
def Rn.encode (r : Rn) : Nat := r.val <<< 16

/-- `Encode for Rd`: sets bits 12 to 15. -/
def Rd.encode (r : Rd) : Nat := r.val <<< 12

/-- `Encode for Rm`: sets bits 0 to 3. -/
def Rm.encode (r : Rm) : Nat := r.val

/-- `Encode for Rs`: sets bits 8 to 11. -/
def Rs.encode (r : Rs) : Nat := r.val <<< 8

/-- `Encode for Shift`: sets bits 5 to 6. -/
def Shift.encode (s : Shift) : Nat := s.toBits <<< 5

/-- `Encode for RotatedImm8`: sets bits 0 to 12. -/
def RotatedImm8.encode (r : RotatedImm8) : Nat := (r.rotate <<< 8) ||| r.value

/-- `Encode for ShiftedRegister<Imm<5>>`. -/
def ShiftedRegister.encodeImm (s : ShiftedRegister (Imm 5) Rm) : Nat :=
  s.amount.encode ||| s.kind.encode ||| s.base.encode

/-- `Encode for ShiftedRegister<Rs>`. -/
def ShiftedRegister.encodeReg (s : ShiftedRegister Rs Rm) : Nat :=
  s.amount.encode ||| s.kind.encode ||| s.base.encode

/-- `Encode for ShifterOperandCode`: sets bits 0 to 11. -/
def ShifterOperandCode.encode : ShifterOperandCode → Nat
  | .Immediate imm => imm.encode
  | .ImmediateShift shift => shift.encodeImm
  | .RegisterShift shift => shift.encodeReg

/-- `Encode for OffsetMode`: sets bits 24 and 21. -/
def OffsetMode.encode (m : OffsetMode) : Nat :=
  let pw : Nat × Nat :=
    match m with
    | .Offset => (1, 0)
    | .PreIndexed => (1, 1)
    | .PostIndexed => (0, 0)
  (pw.1 <<< 24) ||| (pw.2 <<< 21)

/-- `Encode for Sign`: sets bit 23. -/
def Sign.encode : Sign → Nat
  | .Positive => 1 <<< 23
  | .Negative => 0

/-- `Encode for AddressingOffsetValue<Imm<12>, Imm<5>>`. -/
def AddressingOffsetValue.encode : AddressingOffsetValue → Nat
  | .Immediate imm => imm.encode
  | .Register register => register.encode
  | .ScaledRegister shiftedRegister => shiftedRegister.encodeImm

/-- `Encode for AddressingOffset<Imm<12>, Imm<5>>`. -/
def AddressingOffset.encode (a : AddressingOffset) : Nat :=
  a.mode.encode ||| a.sign.encode ||| a.value.encode

/-- `Encode for LoadStoreAddressCode<Imm<12>, Imm<5>>`. -/
def LoadStoreAddressCode.encode (a : LoadStoreAddressCode) : Nat :=
  a.base.encode ||| a.offset.encode

/-- `Encode for MultipleAddressingMode`: sets bits 20, 23 and 24. -/
def MultipleAddressingMode.encode (m : MultipleAddressingMode) : Nat :=
  let lpu : Nat × Nat × Nat :=
    match m with
    | .DecrementAfter => (1, 0, 0)
    | .IncrementAfter => (1, 0, 1)
    | .DecrementBefore => (1, 1, 0)
    | .IncrementBefore => (1, 1, 1)
  (lpu.2.1 <<< 24) ||| (lpu.2.2 <<< 23) ||| (lpu.1 <<< 20)

/-- `Encode for WriteBack`: sets bit 21. -/
def WriteBack.encode : Eremius.WriteBack → Nat
  | .WriteBack => 1 <<< 21
  | .NoWriteBack => 0

/-- `Encode for RegisterList`: sets bits 0 to 15 by folding over the
membership booleans with their indices. -/
def RegisterList.encode (rl : RegisterList) : Nat :=
  (rl.registers.zipWith (fun value i => if value then 1 <<< i else 0 <<< i)
      (List.range rl.registers.length)).foldl (· ||| ·) 0

/-- `Encode for InstructionKind` (`src/encoder/mod.rs`).  Note: the
`Calculation` arm binds the ADD/SUB `kind` but never uses it, always
ORing in opcode `0b0100`; the `SuperVisorCall` arm ORs only the condition
and the immediate. -/
def InstructionKind.encode : InstructionKind → Nat
  | .Branch condition kind target =>
      condition.encode ||| (0b101 <<< 25) ||| kind.encode ||| target.encode
  | .DataProcessing condition kind =>
      match kind with
      | .Move kind _setFlags destination shifter =>
          condition.encode ||| (0b11 <<< 23) ||| kind.encode ||| (1 <<< 21)
            ||| destination.encode ||| shifter.encode
      | .Comparison _kind source shifter =>
          condition.encode ||| (0b1010 <<< 21) ||| (1 <<< 20)
            ||| source.encode ||| shifter.encode
      | .Calculation _kind setFlags destination source shifter =>
          condition.encode ||| (0b0100 <<< 21) ||| setFlags.encode
            ||| source.encode ||| destination.encode ||| shifter.encode
  | .LoadStore condition kind quantity destination address =>
      condition.encode ||| (1 <<< 26) ||| kind.encode ||| quantity.encode
        ||| destination.encode ||| address.encode
  | .LoadStoreMultiple condition kind mode base writeBack registerList =>
      condition.encode ||| (0b100 <<< 25) ||| mode.encode ||| writeBack.encode
        ||| base.encode ||| registerList.encode
  | .SuperVisorCall condition immediate =>
      condition.encode ||| immediate.encode

/-! ## Decoder (`src/decoder/mod.rs`) -/

/-- `Bits::index` (`bits[i]`): the single bit at `index`. -/
def bitAt (w : Nat) (index : Nat) : Nat := (w >>> index) &&& 1

/-- `Bits::range(start..=end)`:
`(self.0 >> start) & ((1 << (end - start + 1)) - 1)`. -/
def bitsRange (w : Nat) (start stop : Nat) : Nat :=
  (w >>> start) &&& ((1 <<< (stop - start + 1)) - 1)

/-- Decode failures.  The source type is `InvalidInstructionError`; the
source also has a `todo!()` arm (bit pattern `110`) and two `unwrap()`
calls that make the source program abort, modelled here as the two extra
failure values. -/
inductive DecodeFailure where
  | InvalidInstruction
  | todoArm
  | unwrapFailure
deriving DecidableEq, Repr

/-- `Condition::decode` (bits 28..=31).  The source match omits `0b0101`
(`PL`) and `0b1111`, which fall to the error arm. -/
def Condition.decode (w : Nat) : Except DecodeFailure Condition :=
  match bitsRange w 28 31 with
  | 0b0000 => .ok .EQ
  | 0b0001 => .ok .NE
  | 0b0010 => .ok .CS
  | 0b0011 => .ok .CC
  | 0b0100 => .ok .MI
  | 0b0110 => .ok .VS
  | 0b0111 => .ok .VC
  | 0b1000 => .ok .HI
  | 0b1001 => .ok .LS
  | 0b1010 => .ok .GE
  | 0b1011 => .ok .LT
  | 0b1100 => .ok .GT
  | 0b1101 => .ok .LE
  | 0b1110 => .ok .AL
  | _ => .error .InvalidInstruction

/-- `CalculationKind::decode` (bits 21..=24). -/
def CalculationKind.decode (w : Nat) : Except DecodeFailure CalculationKind :=
  match bitsRange w 21 24 with
  | 0b0100 => .ok .ADD
  | 0b0010 => .ok .SUB
  | _ => .error .InvalidInstruction

/-- `SetFlags::decode` (bit 20). -/
def SetFlags.decode (w : Nat) : SetFlags :=
  if bitAt w 20 = 1 then .Set else .DontSet

/-- `Rn::decode` (bits 16..=19). -/
def Rn.decode (w : Nat) : Rn := ⟨bitsRange w 16 19⟩

/-- `Rd::decode` (bits 12..=15). -/
def Rd.decode (w : Nat) : Rd := ⟨bitsRange w 12 15⟩

/-- `Rs::decode` (bits 8..=11). -/
def Rs.decode (w : Nat) : Rs := ⟨bitsRange w 8 11⟩

/-- `Rm::decode` (bits 0..=3). -/
def Rm.decode (w : Nat) : Rm := ⟨bitsRange w 0 3⟩

/-- `Shift::decode` (bits 5..=6). -/
def Shift.decode (w : Nat) : Shift :=
  match bitsRange w 5 6 with
  | 0b00 => .LogicalShiftLeft
  | 0b01 => .LogicalShiftRight
  | 0b10 => .ArithmeticShiftRight
  | _ => .RotateRight

/-- `ShiftedRegister<Imm<5>, Rm>::decode`.  The source unwraps
`Imm::try_from(bits.range(7..=11))`, aborting when the xor-slipped bound
rejects the amount; modelled as `unwrapFailure`. -/
def ShiftedRegister.decodeImm (w : Nat) :
    Except DecodeFailure (ShiftedRegister (Imm 5) Rm) :=
  match Imm.tryFrom 5 (bitsRange w 7 11) with
  | .ok amount => .ok ⟨Shift.decode w, amount, Rm.decode w⟩
  | .error _ => .error .unwrapFailure

/-- `ShiftedRegister<Rs, Rm>::decode`. -/
def ShiftedRegister.decodeReg (w : Nat) : ShiftedRegister Rs Rm :=
  ⟨Shift.decode w, Rs.decode w, Rm.decode w⟩

/-- `RotatedImm8::decode`: `Self::new(bits.range(0..=7), bits.range(8..=11))`. -/
def RotatedImm8.decode (w : Nat) : RotatedImm8 :=
  RotatedImm8.new (bitsRange w 0 7) (bitsRange w 8 11)

/-- `ShifterOperandCode::decode` (dispatch on bits 25 and 4). -/
def ShifterOperandCode.decode (w : Nat) : Except DecodeFailure ShifterOperandCode :=
  if bitAt w 25 = 0 then
    if bitAt w 4 = 0 then
      match ShiftedRegister.decodeImm w with
      | .ok s => .ok (.ImmediateShift s)
      | .error e => .error e
    else
      .ok (.RegisterShift (ShiftedRegister.decodeReg w))
  else
    .ok (.Immediate (RotatedImm8.decode w))

/-- `DataProcessingKind::decode` (bits 21..=24): the source only matches
opcodes `0b0100` and `0b0010`, both as `Calculation`. -/
def DataProcessingKind.decode (w : Nat) : Except DecodeFailure DataProcessingKind :=
  match bitsRange w 21 24 with
  | 0b0100 | 0b0010 => do
      let kind ← CalculationKind.decode w
      let shifter ← ShifterOperandCode.decode w
      .ok (.Calculation kind (SetFlags.decode w) (Rd.decode w) (Rn.decode w) shifter)
  | _ => .error .InvalidInstruction

/-- `LoadStoreKind::decode` (bit 20). -/
def LoadStoreKind.decode (w : Nat) : LoadStoreKind :=
  if bitAt w 20 = 1 then .Load else .Store

/-- `LoadStoreQuantity::decode` (bit 22). -/
def LoadStoreQuantity.decode (w : Nat) : LoadStoreQuantity :=
  if bitAt w 22 = 1 then .Byte else .Word

/-- `Sign::decode` (bit 23). -/
def Sign.decode (w : Nat) : Sign :=
  if bitAt w 23 = 1 then .Positive else .Negative

/-- `OffsetMode::decode` (bits 24 and 21). -/
def OffsetMode.decode (w : Nat) : Except DecodeFailure OffsetMode :=
  match bitAt w 24, bitAt w 21 with
  | 1, 0 => .ok .Offset
  | 1, 1 => .ok .PreIndexed
  | 0, 0 => .ok .PostIndexed
  | _, _ => .error .InvalidInstruction

/-- `AddressingOffsetValue::decode` (bit 25).  The immediate arm unwraps
`Imm::try_from(bits.range(0..=11))`, aborting on the xor-slipped bound;
modelled as `unwrapFailure`. -/
def AddressingOffsetValue.decode (w : Nat) :
    Except DecodeFailure AddressingOffsetValue :=
  if bitAt w 25 = 0 then
    match Imm.tryFrom 12 (bitsRange w 0 11) with
    | .ok imm => .ok (.Immediate imm)
    | .error _ => .error .unwrapFailure
  else
    .ok (.Register (Rm.decode w))

/-- `AddressingOffset::decode`. -/
def AddressingOffset.decode (w : Nat) : Except DecodeFailure AddressingOffset := do
  let value ← AddressingOffsetValue.decode w
  let mode ← OffsetMode.decode w
  .ok ⟨Sign.decode w, value, mode⟩

/-- `LoadStoreAddressCode::decode`. -/
def LoadStoreAddressCode.decode (w : Nat) :
    Except DecodeFailure LoadStoreAddressCode := do
  let offset ← AddressingOffset.decode w
  .ok ⟨Rn.decode w, offset⟩

/-- `MultipleAddressingMode::decode` (the source reads `p` from bit 20,
`u` from bit 23 and `l` from bit 24 and then matches on `(l, p, u)`). -/
def MultipleAddressingMode.decode (w : Nat) :
    Except DecodeFailure MultipleAddressingMode :=
  match bitAt w 24, bitAt w 20, bitAt w 23 with
  | 1, 0, 0 => .ok .DecrementAfter
  | 1, 0, 1 => .ok .IncrementAfter
  | 1, 1, 0 => .ok .DecrementBefore
  | 1, 1, 1 => .ok .IncrementBefore
  | _, _, _ => .error .InvalidInstruction

/-- `WriteBack::decode` (bit 21). -/
def WriteBack.decode (w : Nat) : Eremius.WriteBack :=
  if bitAt w 21 = 1 then .WriteBack else .NoWriteBack

/-- `RegisterList::decode` (bits 0..=15). -/
def RegisterList.decode (w : Nat) : RegisterList :=
  ⟨(List.range 16).map (fun i => bitAt w i == 1)⟩

/-- `BranchKind::decode` (bit 24). -/
def BranchKind.decode (w : Nat) : BranchKind :=
  if bitAt w 24 = 1 then .BranchWithLink else .Branch

/-- `SignedImm<24>::decode`: sign-extends bits 0..=23 using bit 23 and
reinterprets the 32-bit pattern as an `i32`. -/
def SignedImm.decode (w : Nat) : SignedImm 24 :=
  let extendBits := if bitAt w 23 = 1 then (bitsRange u32Mod.pred 24 31) <<< 24 else 0
  SignedImm.new 24 (toI32 (bitsRange w 0 23 ||| extendBits))

/-- `Imm<24>::decode`: bits 0..=23. -/
def Imm.decode24 (w : Nat) : Imm 24 := Imm.new 24 (bitsRange w 0 23)

/-- `InstructionKind::decode` (`src/decoder/mod.rs`): dispatch on bits
25..=27; the `0b110` pattern is a `todo!()` in the source. -/
def InstructionKind.decode (w : Nat) : Except DecodeFailure InstructionKind :=
  match bitsRange w 25 27 with
  | 0b000 | 0b001 => do
      let condition ← Condition.decode w
      let kind ← DataProcessingKind.decode w
      .ok (.DataProcessing condition kind)
  | 0b010 | 0b011 => do
      let condition ← Condition.decode w
      let address ← LoadStoreAddressCode.decode w
      .ok (.LoadStore condition (LoadStoreKind.decode w)
        (LoadStoreQuantity.decode w) (Rd.decode w) address)
  | 0b100 => do
      let condition ← Condition.decode w
      let mode ← MultipleAddressingMode.decode w
      .ok (.LoadStoreMultiple condition (LoadStoreKind.decode w) mode
        (Rn.decode w) (WriteBack.decode w) (RegisterList.decode w))
  | 0b101 => do
      let condition ← Condition.decode w
      .ok (.Branch condition (BranchKind.decode w) (SignedImm.decode w))
  | 0b111 => do
      let condition ← Condition.decode w
      .ok (.SuperVisorCall condition (Imm.decode24 w))
  | _ => .error .todoArm

/-! ## Resolver (`src/resolver/mod.rs`) -/

/-- `ResolveError` from `src/resolver/mod.rs`. -/
inductive ResolveError where
  | SymbolNotFound
  | UnencodableSignedValue (e : UnencodableValueError Int)
  | UnencodableValue (e : UnencodableValueError Nat)
deriving DecidableEq, Repr

/-- The `Branch` arm of `StatementInstructionKind::resolve`, with the
branch target already looked up in the symbol table (`target_address`,
a `u32`) and the statement address `current_address` (a `usize`):
`SignedImm::try_from((target_address as i32 - current_address as i32) >> 2)`.
The i32 `>> 2` is an arithmetic shift, i.e. floor division by 4. -/
def resolveBranch (targetAddress currentAddress : Nat) :
    Except ResolveError (SignedImm 24) :=
  match SignedImm.tryFrom 24 (Int.fdiv (toI32 targetAddress - toI32 currentAddress) 4) with
  | .ok target => .ok target
  | .error e => .error (.UnencodableSignedValue e)

/-- The `Expression` arm of `LoadStoreAddress::resolve`, with the target
expression already resolved to `target_address`: computes the signed PC
offset, its sign and absolute value, and builds a PC-relative
(`Rn = 15`) offset-mode address through `Imm::<12>::try_from`. -/
def resolveLoadStoreExpression (targetAddress currentAddress : Nat) :
    Except ResolveError LoadStoreAddressCode :=
  let pcOffset := toI32 targetAddress - toI32 currentAddress
  let sign := if pcOffset ≥ 0 then Sign.Positive else Sign.Negative
  let value := pcOffset.natAbs
  match Imm.tryFrom 12 value with
  | .ok imm =>
      .ok ⟨⟨15⟩, ⟨sign, .Immediate imm, .Offset⟩⟩
  | .error e => .error (.UnencodableValue e)

/-! ## Pre-processor (`src/preprocessor/mod.rs`) -/

/-- The mutable state of `PreProcessor`, generic over the statement and
expression types (which the `Align` arm never touches). -/
structure PreProcessorState (Stmt Expr : Type) where
  statements : List (Nat × Stmt)
  symbolTable : List (String × Expr)
  entryPoint : Nat
  sourceMap : List (Nat × Nat)
  address : Nat
  labelQueue : List String

/-- The `DirectiveKind::Align` arm of `PreProcessor::run`:
`self.address += 4 - (self.address % 4);` and nothing else. -/
def applyAlignDirective {Stmt Expr : Type} (st : PreProcessorState Stmt Expr) :
    PreProcessorState Stmt Expr :=
  { st with address := st.address + (4 - st.address % 4) }

/-! ## Emulator (`src/emulator/mod.rs`) -/

/-- `CPSR`: the four condition flags. -/
structure CPSR where
  n : Bool
  z : Bool
  c : Bool
  v : Bool
deriving DecidableEq, Repr

/-- Rust release-mode `usize` wrapping subtraction of 1 (used to model
`(amount as usize - 1)`, which underflows when `amount = 0`; a debug
build of the source aborts there instead). -/
def usizeWrapSub1 (amount : Nat) : Nat :=
  (amount + (2 ^ 64 - 1)) % 2 ^ 64

/-- Rust `(base as i32) >> amount` reinterpreted `as u32`: an arithmetic
shift right, i.e. floor division of the signed value by `2^amount`. -/
def asr32 (base amount : Nat) : Nat :=
  ((Int.fdiv (toI32 base) (2 ^ amount)) % (u32Mod : Int)).toNat

/-- The `ShifterOperandCode::ImmediateShift` arm of
`Emulator::calculate_shifter` (`base` is `R[Rm]`, `amount` the 5-bit
immediate, `c` the current carry flag); returns (value, carry-out).
The `LogicalShiftRight` arm computes the carry index as
`(amount as usize - 1) % 32`, which underflows at `amount = 0`. -/
def calculateShifterImmediateShift (kind : Shift) (base amount : Nat) (c : Bool) :
    Nat × Bool :=
  match kind with
  | .LogicalShiftLeft =>
      (((base <<< amount) % u32Mod), bitAt base ((32 - amount) % 32) == 1)
  | .LogicalShiftRight =>
      ((base >>> amount), bitAt base (usizeWrapSub1 amount % 32) == 1)
  | .ArithmeticShiftRight =>
      if amount = 0 then
        if toI32 base < 0 then (0xFFFFFFFF, true) else (0, false)
      else
        (asr32 base amount, bitAt base (amount - 1) == 1)
  | .RotateRight =>
      if amount = 0 then
        (((if c then 1 else 0) <<< 31) ||| (base >>> 1), bitAt base 0 == 1)
      else
        (rotateRight32 base amount, bitAt base (amount - 1) == 1)

/-- `u32::carrying_add(a, b, false)`: the wrapped sum and the carry-out. -/
def carryingAdd (a b : Nat) : Nat × Bool :=
  ((a + b) % u32Mod, decide (u32Mod ≤ a + b))

/-- `u32::borrowing_sub(a, b, false)`: the wrapped difference and the
borrow-out. -/
def borrowingSub (a b : Nat) : Nat × Bool :=
  ((a + u32Mod - b) % u32Mod, decide (a < b))

/-- The `DataProcessingKind::Calculation` arms of `Emulator::execute`,
restricted to the arithmetic and flag updates (the write of `result`
into the destination register is the caller's business).  `a` is
`R[source]`, `b` the already-computed shifter operand.  `ADD` sets
`C = carry` and `V = (checked_add is None)`; `SUB` sets `C = not borrow`
and `V = (checked_sub is None)`. -/
def executeCalculation (kind : CalculationKind) (setFlags : SetFlags)
    (a b : Nat) (cpsr : CPSR) : Nat × CPSR :=
  match kind with
  | .ADD =>
      let rc := carryingAdd a b
      let result := rc.1
      let cpsr' :=
        match setFlags with
        | .Set =>
            { n := decide (toI32 result < 0)
              z := decide (result = 0)
              c := rc.2
              v := decide (u32Mod ≤ a + b) }
        | .DontSet => cpsr
      (result, cpsr')
  | .SUB =>
      let rb := borrowingSub a b
      let result := rb.1
      let cpsr' :=
        match setFlags with
        | .Set =>
            { n := decide (toI32 result < 0)
              z := decide (result = 0)
              c := !rb.2
              v := decide (a < b) }
        | .DontSet => cpsr
      (result, cpsr')

/-! ## Theorems about the claims -/

/-- C1: the spec claims `decode(encode(i)) = i` for every representable
resolved `InstructionKind`.  The source violates this: the encoder's
`Calculation` arm never consults the ADD/SUB kind and always emits opcode
`0b0100`, so encoding `SUB R0, R1, R2` and decoding the word back yields
the corresponding `ADD` instruction, a different `InstructionKind`. -/
theorem decode_encode_sub_gives_add :
    InstructionKind.decode
        ((InstructionKind.DataProcessing .AL (.Calculation .SUB .DontSet ⟨0⟩ ⟨1⟩
          (.ImmediateShift ⟨.LogicalShiftLeft, ⟨0⟩, ⟨2⟩⟩))).encode)
      = .ok (.DataProcessing .AL (.Calculation .ADD .DontSet ⟨0⟩ ⟨1⟩
          (.ImmediateShift ⟨.LogicalShiftLeft, ⟨0⟩, ⟨2⟩⟩)))
    ∧ (InstructionKind.DataProcessing .AL (.Calculation .SUB .DontSet ⟨0⟩ ⟨1⟩
          (.ImmediateShift ⟨.LogicalShiftLeft, ⟨0⟩, ⟨2⟩⟩)))
        ≠ (.DataProcessing .AL (.Calculation .ADD .DontSet ⟨0⟩ ⟨1⟩
          (.ImmediateShift ⟨.LogicalShiftLeft, ⟨0⟩, ⟨2⟩⟩))) :=
  ⟨rfl, by decide⟩

/-- C2: the spec claims branch resolution succeeds exactly when
`(target_address - current_address) >> 2` fits in 24 signed bits.  In the
source the bound `2 ^ (N - 1)` is an i32 xor (`2 XOR 23 = 21`), so the
offset 25 (target 100, current 0) is rejected with
`UnencodableSignedValue` although it lies in `[-2^23, 2^23)`; a branch
with offset 5 still stores `(target - current) >> 2` as claimed. -/
theorem branch_resolve_bound_is_xor :
    resolveBranch 100 0 = .error (.UnencodableSignedValue ⟨25⟩)
    ∧ (-(2 ^ 23) : Int) ≤ 25 ∧ (25 : Int) < 2 ^ 23
    ∧ resolveBranch 20 0 = .ok ⟨5⟩ :=
  ⟨rfl, by decide, by decide, rfl⟩

/-- C3: the spec claims `Imm<N>::try_from(v)` succeeds exactly when
`v < 2^N`.  In the source the bound `2 ^ N` is a bitwise xor
(`2 XOR 12 = 14`), so `Imm::<12>::try_from(100)` fails with
`UnencodableValue` although `100 < 2^12`, and a PC-relative load/store
with absolute offset 100 fails to resolve although the offset fits in
12 bits. -/
theorem imm_tryFrom_bound_is_xor :
    Imm.tryFrom 12 100 = .error ⟨100⟩
    ∧ 100 < 2 ^ 12
    ∧ resolveLoadStoreExpression 100 0 = .error (.UnencodableValue ⟨100⟩)
    ∧ Imm.tryFrom 12 13 = .ok ⟨13⟩ :=
  ⟨rfl, by decide, rfl, rfl⟩

/-- C4: the spec claims the SVC encoding places `1111` in bits 24 to 27.
The source's `SuperVisorCall` arm ORs only the condition and the
immediate, so bits 24 to 27 of the encoded word are `0000`; the condition
(bits 28 to 31) and the 24-bit immediate are placed as claimed. -/
theorem svc_encode_missing_opcode_bits :
    bitsRange ((InstructionKind.SuperVisorCall .AL (Imm.new 24 42)).encode) 24 27 = 0
    ∧ bitsRange ((InstructionKind.SuperVisorCall .AL (Imm.new 24 42)).encode) 28 31 = 0b1110
    ∧ bitsRange ((InstructionKind.SuperVisorCall .AL (Imm.new 24 42)).encode) 0 23 = 42 :=
  ⟨rfl, rfl, rfl⟩

/-- C5: the spec claims the V flag is set to the signed two's-complement
overflow of the operation.  The source sets V from `u32::checked_add` /
`u32::checked_sub`, i.e. the *unsigned* overflow: `ADD 0x7FFFFFFF, #1`
(two positive signed operands, negative result: a signed overflow) leaves
`v = false`, while `SUB 0, #1` (no signed overflow) sets `v = true`. -/
theorem calculation_v_flag_is_unsigned_overflow :
    executeCalculation .ADD .Set 0x7FFFFFFF 1 ⟨false, false, false, false⟩
      = (0x80000000, ⟨true, false, false, false⟩)
    ∧ executeCalculation .SUB .Set 0 1 ⟨false, false, false, false⟩
      = (0xFFFFFFFF, ⟨true, false, false, true⟩) :=
  ⟨rfl, rfl⟩

/-- C6: the spec claims LSR with immediate amount 0 is the "LSR #32"
special case, yielding value 0 and carry = bit 31 of the base.  The
source's `LogicalShiftRight` arm has no amount-0 case: it returns
`base >> 0 = base` (and computes the carry index by an underflowing
`amount - 1`, which wraps to bit 31 in release mode and aborts in a
debug build), so for base `0x80000000` the value is `0x80000000`, not 0. -/
theorem lsr_immediate_zero_not_special_cased :
    calculateShifterImmediateShift .LogicalShiftRight 0x80000000 0 false
      = (0x80000000, true)
    ∧ (0x80000000 : Nat) ≠ 0 :=
  ⟨rfl, by decide⟩

/-- C7: the spec claims `nearest_below(n).get() ≤ n` and
`nearest_below(n).next().get() > n` (or unrepresentable).  At `n = 255`
the source's `next()` increments `rotate` on value wrap-around, which
moves the 8-bit window *down*: the successor of `(rotate 0, value 255)`
is `(rotate 1, value 0b01000000)` whose value is 16, representable
(rotate 1 fits the 4-bit field) and not greater than 255. -/
theorem nearest_below_next_not_above_at_255 :
    (RotatedImm8.nearestBelow 255).get = 255
    ∧ (RotatedImm8.nearestBelow 255).next = ⟨1, 0b01000000⟩
    ∧ (RotatedImm8.nearestBelow 255).next.get = 16
    ∧ ¬ 255 < (RotatedImm8.nearestBelow 255).next.get :=
  ⟨rfl, rfl, rfl, by decide⟩

/-- C8: the spec claims `try_from(n)` succeeds with `get() = n` for every
`n` expressible as an 8-bit value rotated right by an even amount.
`520 = 130 ROR 30` is such a value (`(rotate 15, value 130).get() = 520`),
but the source's window choice rounds the odd rotate amount down, so
`nearest_below(520)` lands on 512 and `try_from(520)` fails, although the
source documents `nearest_below` as exact on encodable values.  The
concrete part of the claim (`0x0003FC00`) does hold. -/
theorem rotated_imm8_tryFrom_misses_encodable :
    RotatedImm8.tryFrom 520 = .error ⟨520⟩
    ∧ (RotatedImm8.new 130 15).get = 520
    ∧ 130 < 256 ∧ 15 * 2 ≤ 30
    ∧ RotatedImm8.tryFrom 0x0003FC00 = .ok ⟨11, 0xFF⟩ :=
  ⟨rfl, rfl, by decide, by decide, rfl⟩

/-- C9: processing an `ALIGN` directive advances the cursor to the next
multiple of 4 when the address is unaligned, advances it by exactly 4
when it is already aligned, and emits no statement. -/
theorem align_directive_behavior {Stmt Expr : Type} (st : PreProcessorState Stmt Expr) :
    (st.address % 4 = 0 → (applyAlignDirective st).address = st.address + 4)
    ∧ (st.address % 4 ≠ 0 →
        (applyAlignDirective st).address % 4 = 0
        ∧ st.address < (applyAlignDirective st).address
        ∧ (applyAlignDirective st).address < st.address + 4)
    ∧ (applyAlignDirective st).statements = st.statements := by
  refine ⟨?_, ?_, rfl⟩ <;> simp only [applyAlignDirective] <;> intro h <;> omega

/-- Witness for C9 at the aligned address 8 and the unaligned address 5. -/
theorem align_directive_behavior_witness :
    (applyAlignDirective (⟨[], [], 0, [], 8, []⟩ : PreProcessorState Unit Unit)).address = 8 + 4
    ∧ ((applyAlignDirective (⟨[], [], 0, [], 5, []⟩ : PreProcessorState Unit Unit)).address % 4 = 0
        ∧ 5 < (applyAlignDirective (⟨[], [], 0, [], 5, []⟩ : PreProcessorState Unit Unit)).address
        ∧ (applyAlignDirective (⟨[], [], 0, [], 5, []⟩ : PreProcessorState Unit Unit)).address < 5 + 4) :=
  ⟨(align_directive_behavior (⟨[], [], 0, [], 8, []⟩ : PreProcessorState Unit Unit)).1 (by decide),
   (align_directive_behavior (⟨[], [], 0, [], 5, []⟩ : PreProcessorState Unit Unit)).2.1 (by decide)⟩

/-- C10: encoding a `Calculation` never consults the ADD/SUB kind (the
word is identical for any two kinds), and for in-range fields the opcode
bits 21 to 24 of the word are always `0b0100`. -/
theorem calculation_encode_independent_of_kind
    (cond : Condition) (k j : CalculationKind) (f : SetFlags)
    (d : Rd) (s : Rn) (sh : ShifterOperandCode) :
    (InstructionKind.DataProcessing cond (.Calculation k f d s sh)).encode
      = (InstructionKind.DataProcessing cond (.Calculation j f d s sh)).encode
    ∧ (d.val < 16 → s.val < 16 → sh.encode < 2 ^ 12 →
        bitsRange ((InstructionKind.DataProcessing cond (.Calculation k f d s sh)).encode)
          21 24 = 0b0100) := by
  constructor
  · rfl
  · intro hd hs hsh
    have e : (InstructionKind.DataProcessing cond (.Calculation k f d s sh)).encode
        = (cond.toBits <<< 28) ||| (0b0100 <<< 21) ||| f.encode
          ||| (s.val <<< 16) ||| (d.val <<< 12) ||| sh.encode := rfl
    have hsb : ∀ m, 4 ≤ m → Nat.testBit s.val m = false := by
      intro m hm
      apply Nat.testBit_lt_two_pow
      have h2 : (2 : Nat) ^ 4 ≤ 2 ^ m := Nat.pow_le_pow_right (by norm_num) hm
      norm_num at h2
      omega
    have hdb : ∀ m, 4 ≤ m → Nat.testBit d.val m = false := by
      intro m hm
      apply Nat.testBit_lt_two_pow
      have h2 : (2 : Nat) ^ 4 ≤ 2 ^ m := Nat.pow_le_pow_right (by norm_num) hm
      norm_num at h2
      omega
    have heb : ∀ m, 12 ≤ m → Nat.testBit sh.encode m = false := by
      intro m hm
      apply Nat.testBit_lt_two_pow
      have h2 : (2 : Nat) ^ 12 ≤ 2 ^ m := Nat.pow_le_pow_right (by norm_num) hm
      norm_num at h2
      omega
    rw [bitsRange, e]
    apply Nat.eq_of_testBit_eq
    intro i
    by_cases hi : i < 4
    · interval_cases i <;> cases f <;>
        simp [Nat.testBit_and, Nat.testBit_shiftRight, Nat.testBit_or,
          Nat.testBit_shiftLeft, SetFlags.encode, hsb, hdb, heb] <;> decide
    · have h15 : Nat.testBit 15 i = false := by
        apply Nat.testBit_lt_two_pow
        have h2 : (2 : Nat) ^ 4 ≤ 2 ^ i := Nat.pow_le_pow_right (by norm_num) (by omega)
        norm_num at h2
        omega
      have h4 : Nat.testBit 4 i = false := by
        apply Nat.testBit_lt_two_pow
        have h2 : (2 : Nat) ^ 3 ≤ 2 ^ i := Nat.pow_le_pow_right (by norm_num) (by omega)
        norm_num at h2
        omega
      simp [Nat.testBit_and, h15, h4]

/-- Witness for C10 at `SUB`/`ADD` with `AL`, `R0 = R1 + (R2 LSL 0)`. -/
theorem calculation_encode_independent_of_kind_witness :
    (InstructionKind.DataProcessing .AL (.Calculation .SUB .DontSet ⟨0⟩ ⟨1⟩
        (.RegisterShift ⟨.LogicalShiftLeft, ⟨3⟩, ⟨2⟩⟩))).encode
      = (InstructionKind.DataProcessing .AL (.Calculation .ADD .DontSet ⟨0⟩ ⟨1⟩
        (.RegisterShift ⟨.LogicalShiftLeft, ⟨3⟩, ⟨2⟩⟩))).encode
    ∧ bitsRange ((InstructionKind.DataProcessing .AL (.Calculation .SUB .DontSet ⟨0⟩ ⟨1⟩
        (.RegisterShift ⟨.LogicalShiftLeft, ⟨3⟩, ⟨2⟩⟩))).encode) 21 24 = 0b0100 :=
  ⟨(calculation_encode_independent_of_kind .AL .SUB .ADD .DontSet ⟨0⟩ ⟨1⟩
      (.RegisterShift ⟨.LogicalShiftLeft, ⟨3⟩, ⟨2⟩⟩)).1,
   (calculation_encode_independent_of_kind .AL .SUB .ADD .DontSet ⟨0⟩ ⟨1⟩
      (.RegisterShift ⟨.LogicalShiftLeft, ⟨3⟩, ⟨2⟩⟩)).2 (by decide) (by decide) (by decide)⟩

end Eremius
